import Mathlib

/-!
Shallow embedding of the fitness-tracker module `homework.py`.

The module processes data for three training types (running, sports walking,
swimming).  Python `float` arithmetic is modelled by exact rational
arithmetic (`ℚ`); the spec itself only requires decimal results to match at
the output precision, and every formula here is a small field expression.
Python's virtual dispatch over the class hierarchy
`Training` / `Running` / `SportsWalking` / `Swimming` is modelled by an
inductive type with one constructor per concrete class; a method overridden
in a subclass becomes the corresponding match arm.
-/

namespace Tracker

/-- Class constant `Training.M_IN_KM = 1000`. -/
def M_IN_KM : ℚ := 1000

/-- Class constant `Training.HOUR_IN_MINUTES = 60`. -/
def HOUR_IN_MINUTES : ℚ := 60

/-- Class constant `Running.CALORIES_MEAN_SPEED_MULTIPLIER = 18`. -/
def CALORIES_MEAN_SPEED_MULTIPLIER : ℚ := 18

/-- Class constant `Running.CALORIES_MEAN_SPEED_SHIFT = 1.79`. -/
def CALORIES_MEAN_SPEED_SHIFT : ℚ := 1.79

/-- Class constant `SportsWalking.WALK_COEFFICIENT_1 = 0.035`. -/
def WALK_COEFFICIENT_1 : ℚ := 0.035

/-- Class constant `SportsWalking.WALK_COEFFICIENT_2 = 0.029`. -/
def WALK_COEFFICIENT_2 : ℚ := 0.029

/-- Class constant `SportsWalking.KMH_in_MS = 0.278`. -/
def KMH_in_MS : ℚ := 0.278

/-- Class constant `SportsWalking.SM_in_M = 100`. -/
def SM_in_M : ℚ := 100

/-- Class constant `Swimming.SWIM_COEFFICIENT_1 = 1.1`. -/
def SWIM_COEFFICIENT_1 : ℚ := 1.1

/-- Class constant `Swimming.SWIM_COEFFICIENT_2 = 2`. -/
def SWIM_COEFFICIENT_2 : ℚ := 2

/-- The concrete training classes.  `running a d w` is `Running(a, d, w)`,
`sportsWalking a d w h` is `SportsWalking(a, d, w, h)`, and
`swimming a d w lp cp` is `Swimming(a, d, w, lp, cp)`. -/
inductive Training where
  | running (action duration weight : ℚ)
  | sportsWalking (action duration weight height : ℚ)
  | swimming (action duration weight length_pool count_pool : ℚ)
deriving DecidableEq

/-- Attribute `self.action`, set by `Training.__init__`. -/
def Training.action : Training → ℚ
  | .running a _ _ => a
  | .sportsWalking a _ _ _ => a
  | .swimming a _ _ _ _ => a

/-- Attribute `self.duration`, set by `Training.__init__`. -/
def Training.duration : Training → ℚ
  | .running _ d _ => d
  | .sportsWalking _ d _ _ => d
  | .swimming _ d _ _ _ => d

/-- Attribute `self.weight`, set by `Training.__init__`. -/
def Training.weight : Training → ℚ
  | .running _ _ w => w
  | .sportsWalking _ _ w _ => w
  | .swimming _ _ w _ _ => w

/-- Class constant `LEN_STEP`: `0.65` on the base class, overridden to
`1.38` by `Swimming`. -/
def Training.LEN_STEP : Training → ℚ
  | .swimming _ _ _ _ _ => 1.38
  | _ => 0.65

/-- `Training.get_distance`: `action * LEN_STEP / M_IN_KM`.  It is not
overridden by any subclass, so `Swimming` inherits it with its own
`LEN_STEP = 1.38`. -/
def Training.get_distance (t : Training) : ℚ :=
  t.action * t.LEN_STEP / M_IN_KM

/-- `get_mean_speed`: the base class returns
`self.get_distance() / self.duration`; `Swimming` overrides it with
`(length_pool * count_pool / M_IN_KM) / duration`. -/
def Training.get_mean_speed (t : Training) : ℚ :=
  match t with
  | .swimming _ duration _ length_pool count_pool =>
      length_pool * count_pool / M_IN_KM / duration
  | .running _ _ _ => t.get_distance / t.duration
  | .sportsWalking _ _ _ _ => t.get_distance / t.duration

/-- `get_spent_calories`, as overridden by each concrete class (the base
class returns `0.0` but is never instantiated by `read_package`). -/
def Training.get_spent_calories (t : Training) : ℚ :=
  match t with
  | .running _ duration weight =>
      (CALORIES_MEAN_SPEED_MULTIPLIER * t.get_mean_speed
          + CALORIES_MEAN_SPEED_SHIFT)
        * weight / M_IN_KM * duration * HOUR_IN_MINUTES
  | .sportsWalking _ duration weight height =>
      (WALK_COEFFICIENT_1 * weight
          + ((t.get_mean_speed * KMH_in_MS) ^ 2 / (height / SM_in_M))
            * WALK_COEFFICIENT_2 * weight)
        * (duration * HOUR_IN_MINUTES)
  | .swimming _ duration weight _ _ =>
      (t.get_mean_speed + SWIM_COEFFICIENT_1)
        * SWIM_COEFFICIENT_2 * weight * duration

/-- `self.__class__.__name__`, as used by `show_training_info`. -/
def Training.className : Training → String
  | .running _ _ _ => "Running"
  | .sportsWalking _ _ _ _ => "SportsWalking"
  | .swimming _ _ _ _ _ => "Swimming"

/-- The `InfoMessage` record constructed by `show_training_info`. -/
structure InfoMessage where
  training_type : String
  duration : ℚ
  distance : ℚ
  speed : ℚ
  calories : ℚ
deriving DecidableEq

/-- `Training.show_training_info`: builds the `InfoMessage` from the class
name, the duration and the three virtual getters. -/
def Training.show_training_info (t : Training) : InfoMessage :=
  { training_type := t.className
    duration := t.duration
    distance := t.get_distance
    speed := t.get_mean_speed
    calories := t.get_spent_calories }

/-- Rounding half to even, the tie-breaking rule of Python `format(x, '.3f')`
applied to the scaled value. -/
def roundHalfEven (q : ℚ) : ℤ :=
  let f : ℤ := ⌊q⌋
  let r : ℚ := q - f
  if r < 1 / 2 then f
  else if 1 / 2 < r then f + 1
  else if f % 2 = 0 then f else f + 1

/-- The decimal digit character of `d % 10`. -/
def digitChar3 (d : Nat) : Char :=
  match d % 10 with
  | 0 => '0'
  | 1 => '1'
  | 2 => '2'
  | 3 => '3'
  | 4 => '4'
  | 5 => '5'
  | 6 => '6'
  | 7 => '7'
  | 8 => '8'
  | _ => '9'

/-- `k` rendered as exactly three decimal digit characters (for `k < 1000`
this is the zero-padded value of `k`). -/
def pad3 (k : Nat) : String :=
  ⟨[digitChar3 (k / 100), digitChar3 (k / 10), digitChar3 k]⟩

/-- Python's fixed-point formatting `:.3f` on the rational model:
round `q * 1000` half to even, then print with exactly three digits after
the decimal point. -/
def formatFloat3 (q : ℚ) : String :=
  let n : ℤ := roundHalfEven (q * 1000)
  let m : Nat := n.natAbs
  let intPart : String := (if n < 0 then "-" else "") ++ toString (m / 1000)
  intPart ++ "." ++ pad3 (m % 1000)

/-- `InfoMessage.get_message`: the fixed-template summary line, each numeric
field formatted with `:.3f`. -/
def InfoMessage.get_message (msg : InfoMessage) : String :=
  "Тип тренировки: " ++ msg.training_type ++ "; " ++
  "Длительность: " ++ formatFloat3 msg.duration ++ " ч.; " ++
  "Дистанция: " ++ formatFloat3 msg.distance ++ " км; " ++
  "Ср. скорость: " ++ formatFloat3 msg.speed ++ " км/ч; " ++
  "Потрачено ккал: " ++ formatFloat3 msg.calories ++ "."

/-- Errors that a call to `read_package` can raise.  `keyError` is Python's
`KeyError` from the dictionary lookup `sport_types[workout_type]`;
`typeError` is Python's `TypeError` from calling a class constructor with
the wrong number of positional arguments (it carries the class name).
`unknownActivityKind` and `invalidFieldArity` are the error kinds the
specification names; no code path in the source produces them — they exist
here only so the spec's error-handling claims can be stated and compared
with the code's behaviour. -/
inductive PyError where
  | keyError (key : String)
  | typeError (cls : String)
  | unknownActivityKind (tag : String)
  | invalidFieldArity (tag : String)
deriving DecidableEq

/-- `read_package`: looks `workout_type` up in the `sport_types` dictionary
mapping "SWM" to Swimming, "RUN" to Running and "WLK" to SportsWalking (a
missing key raises `KeyError(workout_type)`) and calls the class with `*data`
(a length mismatch raises `TypeError` at the constructor). -/
def read_package (workout_type : String) (data : List ℚ) :
    Except PyError Training :=
  if workout_type = "SWM" then
    match data with
    | [action, duration, weight, length_pool, count_pool] =>
        .ok (.swimming action duration weight length_pool count_pool)
    | _ => .error (.typeError "Swimming")
  else if workout_type = "RUN" then
    match data with
    | [action, duration, weight] => .ok (.running action duration weight)
    | _ => .error (.typeError "Running")
  else if workout_type = "WLK" then
    match data with
    | [action, duration, weight, height] =>
        .ok (.sportsWalking action duration weight height)
    | _ => .error (.typeError "SportsWalking")
  else
    .error (.keyError workout_type)

/-- Every value `digitChar3` produces is a decimal digit character. -/
theorem digitChar3_isDigit (d : Nat) : (digitChar3 d).isDigit := by
  unfold digitChar3
  have h : d % 10 < 10 := Nat.mod_lt _ (by norm_num)
  interval_cases hr : d % 10 <;> decide

/-- Every character of `pad3 k` is a decimal digit character. -/
theorem pad3_digits (k : Nat) : ∀ c ∈ (pad3 k).data, c.isDigit := by
  intro c hc
  simp only [pad3, List.mem_cons, List.not_mem_nil, or_false] at hc
  rcases hc with h | h | h <;> (subst h; exact digitChar3_isDigit _)

/-- C1 counterexample: for the input (action=720, duration=1, weight=80,
length_pool=25, count_pool=40), the distance placed in the summary is
0.9936 km (action * 1.38 / 1000), not 25 * 40 / 1000 = 1.0 km: `Swimming`
does not override `get_distance`, it only overrides `LEN_STEP`. -/
theorem c1_counterexample :
    (Training.swimming 720 1 80 25 40).show_training_info.distance = 0.9936 ∧
    (Training.swimming 720 1 80 25 40).show_training_info.distance ≠
      25 * 40 / 1000 ∧
    (Training.swimming 720 1 80 25 40).show_training_info.distance ≠ 1 := by
  refine ⟨?_, ?_, ?_⟩ <;>
    norm_num [Training.show_training_info, Training.get_distance,
      Training.action, Training.LEN_STEP, M_IN_KM]

/-- C1 (amended): for every swimming record, the distance reported in the
workout summary equals action * 1.38 / 1000 km; the pool formula
length_pool * count_pool / 1000 is used only inside `get_mean_speed`. -/
theorem c1_swimming_reported_distance (a d w lp cp : ℚ) :
    (Training.swimming a d w lp cp).show_training_info.distance =
      a * 1.38 / 1000 := by
  norm_num [Training.show_training_info, Training.get_distance,
    Training.action, Training.LEN_STEP, M_IN_KM]

/-- C2 counterexample: for the swimming sample record the summary's mean
speed is 1.0 km/h while the summary's distance divided by its duration is
0.9936 km/h, so the claimed relation fails on the swimming variant. -/
theorem c2_counterexample :
    (Training.swimming 720 1 80 25 40).show_training_info.speed ≠
      (Training.swimming 720 1 80 25 40).show_training_info.distance /
        (Training.swimming 720 1 80 25 40).show_training_info.duration := by
  norm_num [Training.show_training_info, Training.get_distance,
    Training.get_mean_speed, Training.action, Training.duration,
    Training.LEN_STEP, M_IN_KM]

/-- C2 (amended): for running and walking records with positive duration the
summary's mean speed equals the summary's distance divided by its duration;
for swimming the two sides differ in general, because the speed is computed
from the pool distance while the reported distance uses action * 1.38. -/
theorem c2_speed_eq_distance_div_duration (a d w h : ℚ) (_hd : 0 < d) :
    (Training.running a d w).show_training_info.speed =
      (Training.running a d w).show_training_info.distance /
        (Training.running a d w).show_training_info.duration ∧
    (Training.sportsWalking a d w h).show_training_info.speed =
      (Training.sportsWalking a d w h).show_training_info.distance /
        (Training.sportsWalking a d w h).show_training_info.duration := by
  constructor <;> simp [Training.show_training_info, Training.get_mean_speed]

/-- C2 witness: the amended statement instantiated at action 15000,
duration 1, weight 75 and height 180. -/
theorem c2_witness :
    (0 : ℚ) < 1 ∧
    ((Training.running 15000 1 75).show_training_info.speed =
        (Training.running 15000 1 75).show_training_info.distance /
          (Training.running 15000 1 75).show_training_info.duration ∧
      (Training.sportsWalking 15000 1 75 180).show_training_info.speed =
        (Training.sportsWalking 15000 1 75 180).show_training_info.distance /
          (Training.sportsWalking 15000 1 75 180).show_training_info.duration) :=
  ⟨by norm_num, c2_speed_eq_distance_div_duration 15000 1 75 180 (by norm_num)⟩

/-- C3 counterexample: dispatching the unknown tag "XYZ" fails with Python's
`KeyError("XYZ")` from the dictionary lookup, not with an error kind named
`UnknownActivityKind` (no such error exists anywhere in the source). -/
theorem c3_counterexample :
    read_package "XYZ" [720, 1, 80, 25, 40] =
      Except.error (PyError.keyError "XYZ") ∧
    read_package "XYZ" [720, 1, 80, 25, 40] ≠
      Except.error (PyError.unknownActivityKind "XYZ") :=
  ⟨rfl, by simp [read_package]⟩

/-- C3 (amended): dispatching any tag outside the set SWM, RUN, WLK fails
with a `KeyError` naming the offending tag, and in particular never returns
a summary (the result is an error, not an `ok`). -/
theorem c3_unknown_tag_raises_keyError (tag : String) (data : List ℚ)
    (h1 : tag ≠ "SWM") (h2 : tag ≠ "RUN") (h3 : tag ≠ "WLK") :
    read_package tag data = Except.error (PyError.keyError tag) := by
  simp [read_package, h1, h2, h3]

/-- C3 witness: the amended statement instantiated at tag "XYZ". -/
theorem c3_witness :
    ("XYZ" : String) ≠ "SWM" ∧ ("XYZ" : String) ≠ "RUN" ∧
    ("XYZ" : String) ≠ "WLK" ∧
    read_package "XYZ" [] = Except.error (PyError.keyError "XYZ") :=
  ⟨by decide, by decide, by decide,
    c3_unknown_tag_raises_keyError "XYZ" [] (by decide) (by decide) (by decide)⟩

/-- C4 counterexample: dispatching "RUN" with the two fields [15000, 1]
fails with Python's `TypeError` from calling `Running` with the wrong
number of positional arguments, not with an error kind named
`InvalidFieldArity` (no such error exists anywhere in the source). -/
theorem c4_counterexample :
    read_package "RUN" [15000, 1] =
      Except.error (PyError.typeError "Running") ∧
    read_package "RUN" [15000, 1] ≠
      Except.error (PyError.invalidFieldArity "RUN") :=
  ⟨rfl, by simp [read_package]⟩

/-- C4 (amended): dispatching any known tag with a field list whose length
does not match that variant's constructor arity (5 for "SWM", 3 for "RUN",
4 for "WLK") fails with a `TypeError` at that variant's constructor rather
than producing a summary. -/
theorem c4_known_tag_arity_raises_typeError (data : List ℚ) :
    (data.length ≠ 5 →
      read_package "SWM" data =
        Except.error (PyError.typeError "Swimming")) ∧
    (data.length ≠ 3 →
      read_package "RUN" data =
        Except.error (PyError.typeError "Running")) ∧
    (data.length ≠ 4 →
      read_package "WLK" data =
        Except.error (PyError.typeError "SportsWalking")) := by
  refine ⟨?_, ?_, ?_⟩
  · intro h
    match data, h with
    | [], _ => rfl
    | [a], _ => rfl
    | [a, b], _ => rfl
    | [a, b, c], _ => rfl
    | [a, b, c, d], _ => rfl
    | [a, b, c, d, e], h => exact absurd rfl h
    | a :: b :: c :: d :: e :: f :: tl, _ => rfl
  · intro h
    match data, h with
    | [], _ => rfl
    | [a], _ => rfl
    | [a, b], _ => rfl
    | [a, b, c], h => exact absurd rfl h
    | a :: b :: c :: d :: tl, _ => rfl
  · intro h
    match data, h with
    | [], _ => rfl
    | [a], _ => rfl
    | [a, b], _ => rfl
    | [a, b, c], _ => rfl
    | [a, b, c, d], h => exact absurd rfl h
    | a :: b :: c :: d :: e :: tl, _ => rfl

/-- C4 witness: the amended statement instantiated at the field list
[15000, 1] of length 2, exercising the "RUN" conjunct. -/
theorem c4_witness :
    ([15000, 1] : List ℚ).length ≠ 3 ∧
    read_package "RUN" [15000, 1] =
      Except.error (PyError.typeError "Running") :=
  ⟨by decide,
    (c4_known_tag_arity_raises_typeError [15000, 1]).2.1 (by decide)⟩

/-- C5 counterexample: for the running input (15000, 1, 75) the summary's
calories are 797.805, which differs from the claim's value 799.175 by 1.37,
far beyond the 3-decimal output precision. -/
theorem c5_counterexample :
    (Training.running 15000 1 75).show_training_info.calories = 797.805 ∧
    (Training.running 15000 1 75).show_training_info.calories ≠ 799.175 ∧
    (799.175 : ℚ) - (Training.running 15000 1 75).show_training_info.calories
      > 1 / 1000 := by
  refine ⟨?_, ?_, ?_⟩ <;>
    norm_num [Training.show_training_info, Training.get_spent_calories,
      Training.get_mean_speed, Training.get_distance, Training.action,
      Training.duration, Training.weight, Training.LEN_STEP, M_IN_KM,
      HOUR_IN_MINUTES, CALORIES_MEAN_SPEED_MULTIPLIER,
      CALORIES_MEAN_SPEED_SHIFT]

/-- C5 (amended): for the running input (action=15000, duration=1,
weight=75), the computed summary has distance = 9.75 km, mean speed = 9.75
km/h, and calories equal to (18 * 9.75 + 1.79) * 75 / 1000 * 1 * 60
= 797.805 (not 799.175). -/
theorem c5_running_sample :
    (Training.running 15000 1 75).show_training_info.distance = 9.75 ∧
    (Training.running 15000 1 75).show_training_info.speed = 9.75 ∧
    (Training.running 15000 1 75).show_training_info.calories =
      (18 * 9.75 + 1.79) * 75 / 1000 * 1 * 60 ∧
    (Training.running 15000 1 75).show_training_info.calories = 797.805 := by
  refine ⟨?_, ?_, ?_, ?_⟩ <;>
    norm_num [Training.show_training_info, Training.get_spent_calories,
      Training.get_mean_speed, Training.get_distance, Training.action,
      Training.duration, Training.weight, Training.LEN_STEP, M_IN_KM,
      HOUR_IN_MINUTES, CALORIES_MEAN_SPEED_MULTIPLIER,
      CALORIES_MEAN_SPEED_SHIFT]

/-- C6: for every running record with positive duration, the summary's
calories equal (18 * mean_speed + 1.79) * weight / 1000 * duration * 60,
where mean_speed is the record's mean speed. -/
theorem c6_running_calories (a d w : ℚ) (_hd : 0 < d) :
    (Training.running a d w).show_training_info.calories =
      (18 * (Training.running a d w).get_mean_speed + 1.79)
        * w / 1000 * d * 60 := by
  simp [Training.show_training_info, Training.get_spent_calories,
    Training.duration, Training.weight, M_IN_KM, HOUR_IN_MINUTES,
    CALORIES_MEAN_SPEED_MULTIPLIER, CALORIES_MEAN_SPEED_SHIFT]

/-- C6 witness: the running calorie formula instantiated at the sample
input (15000, 1, 75). -/
theorem c6_witness :
    (0 : ℚ) < 1 ∧
    (Training.running 15000 1 75).show_training_info.calories =
      (18 * (Training.running 15000 1 75).get_mean_speed + 1.79)
        * 75 / 1000 * 1 * 60 :=
  ⟨by norm_num, c6_running_calories 15000 1 75 (by norm_num)⟩

/-- C7: for every walking record with positive duration and height, the
summary's calories equal
(0.035 * weight + ((mean_speed * 0.278) ^ 2 / (height / 100)) * 0.029
* weight) * (duration * 60). -/
theorem c7_walking_calories (a d w h : ℚ) (_hd : 0 < d) (_hh : 0 < h) :
    (Training.sportsWalking a d w h).show_training_info.calories =
      (0.035 * w
          + (((Training.sportsWalking a d w h).get_mean_speed * 0.278) ^ 2
              / (h / 100)) * 0.029 * w)
        * (d * 60) := by
  simp [Training.show_training_info, Training.get_spent_calories,
    Training.duration, Training.weight, HOUR_IN_MINUTES,
    WALK_COEFFICIENT_1, WALK_COEFFICIENT_2, KMH_in_MS, SM_in_M]

/-- C7 witness: the walking calorie formula instantiated at the sample
input (9000, 1, 75, 180). -/
theorem c7_witness :
    (0 : ℚ) < 1 ∧ (0 : ℚ) < 180 ∧
    (Training.sportsWalking 9000 1 75 180).show_training_info.calories =
      (0.035 * 75
          + (((Training.sportsWalking 9000 1 75 180).get_mean_speed * 0.278) ^ 2
              / (180 / 100)) * 0.029 * 75)
        * (1 * 60) :=
  ⟨by norm_num, by norm_num,
    c7_walking_calories 9000 1 75 180 (by norm_num) (by norm_num)⟩

/-- C8: for every swimming record with positive duration, the summary's
calories equal (mean_speed + 1.1) * 2 * weight * duration; and the sample
input (720, 1, 80, 25, 40) yields 336 calories. -/
theorem c8_swimming_calories (a d w lp cp : ℚ) (_hd : 0 < d) :
    (Training.swimming a d w lp cp).show_training_info.calories =
      ((Training.swimming a d w lp cp).get_mean_speed + 1.1)
        * 2 * w * d ∧
    (Training.swimming 720 1 80 25 40).show_training_info.calories = 336 := by
  constructor
  · simp [Training.show_training_info, Training.get_spent_calories,
      Training.duration, Training.weight, SWIM_COEFFICIENT_1,
      SWIM_COEFFICIENT_2]
  · norm_num [Training.show_training_info, Training.get_spent_calories,
      Training.get_mean_speed, Training.duration, Training.weight, M_IN_KM,
      SWIM_COEFFICIENT_1, SWIM_COEFFICIENT_2]

/-- C8 witness: the swimming calorie formula instantiated at the sample
input (720, 1, 80, 25, 40). -/
theorem c8_witness :
    (0 : ℚ) < 1 ∧
    ((Training.swimming 720 1 80 25 40).show_training_info.calories =
        ((Training.swimming 720 1 80 25 40).get_mean_speed + 1.1)
          * 2 * 80 * 1 ∧
      (Training.swimming 720 1 80 25 40).show_training_info.calories = 336) :=
  ⟨by norm_num, c8_swimming_calories 720 1 80 25 40 (by norm_num)⟩

/-- C9: the formatter renders every summary in the fixed template with the
fields in the order label, duration, distance, speed, calories, and every
numeric value is rendered with exactly three digit characters after the
decimal point. -/
theorem c9_message_format (msg : InfoMessage) :
    msg.get_message =
      "Тип тренировки: " ++ msg.training_type ++ "; " ++
      "Длительность: " ++ formatFloat3 msg.duration ++ " ч.; " ++
      "Дистанция: " ++ formatFloat3 msg.distance ++ " км; " ++
      "Ср. скорость: " ++ formatFloat3 msg.speed ++ " км/ч; " ++
      "Потрачено ккал: " ++ formatFloat3 msg.calories ++ "." ∧
    ∀ q : ℚ, ∃ ip fp : String,
      formatFloat3 q = ip ++ "." ++ fp ∧ fp.length = 3 ∧
        ∀ c ∈ fp.data, c.isDigit := by
  refine ⟨rfl, fun q => ?_⟩
  exact ⟨(if roundHalfEven (q * 1000) < 0 then "-" else "")
      ++ toString ((roundHalfEven (q * 1000)).natAbs / 1000),
    pad3 ((roundHalfEven (q * 1000)).natAbs % 1000),
    rfl, rfl, pad3_digits _⟩

/-- C10: the label placed in every summary is the implementing class's name;
dispatching "WLK" yields a record labelled "SportsWalking", "RUN" yields
"Running", and "SWM" yields "Swimming". -/
theorem c10_label_is_class_name :
    (∀ t : Training,
      t.show_training_info.training_type = t.className) ∧
    (∀ a d w h : ℚ,
      read_package "WLK" [a, d, w, h] =
        Except.ok (Training.sportsWalking a d w h)) ∧
    (∀ a d w h : ℚ,
      (Training.sportsWalking a d w h).show_training_info.training_type =
        "SportsWalking") ∧
    (∀ a d w : ℚ,
      read_package "RUN" [a, d, w] = Except.ok (Training.running a d w)) ∧
    (∀ a d w : ℚ,
      (Training.running a d w).show_training_info.training_type =
        "Running") ∧
    (∀ a d w lp cp : ℚ,
      read_package "SWM" [a, d, w, lp, cp] =
        Except.ok (Training.swimming a d w lp cp)) ∧
    (∀ a d w lp cp : ℚ,
      (Training.swimming a d w lp cp).show_training_info.training_type =
        "Swimming") :=
  ⟨fun _ => rfl, fun _ _ _ _ => rfl, fun _ _ _ _ => rfl, fun _ _ _ => rfl,
    fun _ _ _ => rfl, fun _ _ _ _ _ => rfl, fun _ _ _ _ _ => rfl⟩

end Tracker
